import Mathlib

/-!
Verification of the AI mock-interview scoring engine
(`app/ml/feature_extraction.py`, `app/ml_service.py`, `app/main.py`).

The Python code is shallowly embedded: Python floats become `ℚ`,
Python dicts of features become association lists `List (String × FVal)`,
and the external NLP libraries (NLTK tokenizers, the regex word-boundary
counter, TextBlob and VADER sentiment, the NLTK stop-word list) are
abstracted into an `NLP` record of oracle functions that the extractor
is parameterized over — every theorem about the extractor holds for an
arbitrary oracle.  Fallible external model prediction is a function into
`Except`.
-/

namespace MockInterview

/-- A value stored in a Python feature dict: a number or a boolean. -/
inductive FVal where
  | num (q : ℚ)
  | bool (b : Bool)
deriving DecidableEq

/-- A Python feature dict, as an insertion-ordered association list.
All sub-extractors of `extract_all_features` emit pairwise-disjoint fresh
keys, so `dict.update` in that code is exactly list append. -/
abbrev Features := List (String × FVal)

/-- Dict lookup (`features[k]` / membership), first match wins. -/
def fget : Features → String → Option FVal
  | [], _ => none
  | (k, v) :: rest, key => if key = k then some v else fget rest key

/-- Python numeric coercion of a dict value (`True == 1`, `False == 0`). -/
def FVal.toRat : FVal → ℚ
  | num q => q
  | bool b => if b then 1 else 0

/-- Python truthiness of a dict value. -/
def FVal.toBool : FVal → Bool
  | num q => decide (q ≠ 0)
  | bool b => b

/-- `features.get(k, d)` read in a numeric context. -/
def getNum (f : Features) (k : String) (d : ℚ) : ℚ :=
  match fget f k with
  | some v => v.toRat
  | none => d

/-- `features.get(k, d)` read in a boolean context. -/
def getBool (f : Features) (k : String) (d : Bool) : Bool :=
  match fget f k with
  | some v => v.toBool
  | none => d

/-- Python `str.isalpha()`. -/
def pyIsAlpha (s : String) : Bool :=
  !s.isEmpty && s.toList.all Char.isAlpha

/-- Python `str.lower()`. -/
def pyLower (s : String) : String :=
  String.mk (s.toList.map Char.toLower)

/-- Python `str.strip()`: drop leading and trailing whitespace. -/
def pyStrip (s : String) : String :=
  String.mk (((s.toList.dropWhile Char.isWhitespace).reverse.dropWhile Char.isWhitespace).reverse)

/-- Whether the first character list starts the second one. -/
def startsWithChars : List Char → List Char → Bool
  | [], _ => true
  | _ :: _, [] => false
  | a :: as, b :: bs => a = b && startsWithChars as bs

/-- Whether the first character list occurs contiguously in the second. -/
def hasSubChars (needle : List Char) : List Char → Bool
  | [] => startsWithChars needle []
  | b :: bs => startsWithChars needle (b :: bs) || hasSubChars needle bs

/-- Python substring containment `needle in hay`. -/
def pyIn (needle hay : String) : Bool :=
  hasSubChars needle.toList hay.toList

/-- Python `s.startswith(p)`. -/
def pyStartswith (p s : String) : Bool :=
  startsWithChars p.toList s.toList

/-- Oracle for the external NLP libraries used by the extractor:
NLTK `word_tokenize` / `sent_tokenize`, the count of regex
word-boundary matches `len(re.findall(r'\b term \b', text))`
(`countOcc term text`), TextBlob and VADER sentiment, and the NLTK
English stop-word list.  The embedding quantifies over this record. -/
structure NLP where
  word_tokenize : String → List String
  sent_tokenize : String → List String
  countOcc : String → String → Nat
  blob_polarity : String → ℚ
  blob_subjectivity : String → ℚ
  vader_compound : String → ℚ
  vader_pos : String → ℚ
  vader_neg : String → ℚ
  vader_neu : String → ℚ
  is_stopword : String → Bool

/-- `self.filler_words` from `ResponseFeatureExtractor.__init__`. -/
def filler_words : List String :=
  ["um", "uh", "like", "you know", "so", "well", "actually", "basically",
   "literally", "totally", "obviously", "i mean", "sort of", "kind of"]

/-- `self.technical_terms['technical_software']`. -/
def technical_software_terms : List String :=
  ["algorithm", "data structure", "api", "database", "framework", "library",
   "object-oriented", "functional", "recursion", "iteration", "complexity",
   "optimization", "debugging", "testing", "deployment", "version control",
   "git", "sql", "nosql", "rest", "json", "xml", "http", "https",
   "javascript", "python", "java", "c++", "react", "node", "docker",
   "kubernetes", "aws", "cloud", "microservices", "authentication",
   "authorization", "encryption", "security", "performance", "scalability"]

/-- `self.technical_terms['behavioral']`. -/
def behavioral_terms : List String :=
  ["leadership", "teamwork", "communication", "collaboration", "problem-solving",
   "decision-making", "conflict resolution", "time management", "priority",
   "deadline", "responsibility", "accountability", "initiative", "motivation",
   "adaptability", "flexibility", "learning", "growth", "feedback",
   "improvement", "challenge", "success", "failure", "lesson", "experience"]

/-- `self.technical_terms.get(interview_type, set())`. -/
def technical_terms (interview_type : String) : List String :=
  if interview_type = "technical_software" then technical_software_terms
  else if interview_type = "behavioral" then behavioral_terms
  else []

/-- `self.confidence_positive`. -/
def confidence_positive : List String :=
  ["definitely", "certainly", "absolutely", "confident", "sure", "positive",
   "know", "believe", "understand", "clear", "obvious", "simple", "straightforward"]

/-- `self.confidence_negative`. -/
def confidence_negative : List String :=
  ["maybe", "perhaps", "possibly", "might", "could", "unsure", "uncertain",
   "confused", "difficult", "complicated", "not sure", "i think", "i guess",
   "probably", "hopefully", "i believe"]

/-- `self.structure_words`. -/
def structure_words : List String :=
  ["first", "second", "third", "finally", "next", "then", "after", "before",
   "initially", "subsequently", "furthermore", "moreover", "however", "therefore",
   "in conclusion", "to summarize", "overall", "specifically", "for example"]

/-- `_extract_basic_stats` from `feature_extraction.py`. -/
def _extract_basic_stats (nlp : NLP) (text : String) : Features :=
  let words := nlp.word_tokenize (pyLower text)
  let sentences := nlp.sent_tokenize text
  let alphaWords := words.filter pyIsAlpha
  let word_count : ℕ := alphaWords.length
  let sentence_count : ℕ := sentences.length
  let character_count : ℕ := text.length
  let avg_word_length : ℚ :=
    if word_count > 0 then (alphaWords.map (fun w => (w.length : ℚ))).sum / word_count else 0
  let avg_sentence_length : ℚ :=
    if sentence_count > 0 then (word_count : ℚ) / sentence_count else 0
  let unique_word_ratio : ℚ :=
    if word_count > 0 then (alphaWords.dedup.length : ℚ) / word_count else 0
  [("word_count", .num word_count),
   ("sentence_count", .num sentence_count),
   ("character_count", .num character_count),
   ("avg_word_length", .num avg_word_length),
   ("avg_sentence_length", .num avg_sentence_length),
   ("unique_word_ratio", .num unique_word_ratio)]

/-- `_analyze_filler_words`. -/
def _analyze_filler_words (nlp : NLP) (text : String) : Features :=
  let text_lower := (pyLower text)
  let filler_count : ℕ := (filler_words.map (fun w => nlp.countOcc w text_lower)).sum
  let words := nlp.word_tokenize text_lower
  let word_count : ℕ := (words.filter pyIsAlpha).length
  let filler_ratio : ℚ := if word_count > 0 then (filler_count : ℚ) / word_count else 0
  [("filler_word_count", .num filler_count),
   ("filler_word_ratio", .num filler_ratio)]

/-- `_analyze_technical_terms`. -/
def _analyze_technical_terms (nlp : NLP) (text : String) (interview_type : String) : Features :=
  let text_lower := (pyLower text)
  let technical_count : ℕ :=
    ((technical_terms interview_type).map (fun w => nlp.countOcc w text_lower)).sum
  let words := nlp.word_tokenize text_lower
  let word_count : ℕ := (words.filter pyIsAlpha).length
  let technical_ratio : ℚ := if word_count > 0 then (technical_count : ℚ) / word_count else 0
  [("technical_term_count", .num technical_count),
   ("technical_term_ratio", .num technical_ratio)]

/-- `_analyze_confidence`. -/
def _analyze_confidence (nlp : NLP) (text : String) : Features :=
  let text_lower := (pyLower text)
  let positive_count : ℕ := (confidence_positive.map (fun w => nlp.countOcc w text_lower)).sum
  let negative_count : ℕ := (confidence_negative.map (fun w => nlp.countOcc w text_lower)).sum
  let total_indicators := positive_count + negative_count
  let confidence_score : ℚ :=
    if total_indicators > 0 then (positive_count : ℚ) / total_indicators else 1/2
  [("confidence_indicators_positive", .num positive_count),
   ("confidence_indicators_negative", .num negative_count),
   ("confidence_score", .num confidence_score)]

/-- Python implicit bool-to-number coercion used in `structure_score`. -/
def b2q (b : Bool) : ℚ := if b then 1 else 0

/-- `_analyze_response_structure`.  Note that the `has_*` flags use Python
substring containment (`word in text_lower`), not word-boundary matching. -/
def _analyze_response_structure (nlp : NLP) (text : String) : Features :=
  let text_lower := (pyLower text)
  let structure_count : ℕ := (structure_words.map (fun w => nlp.countOcc w text_lower)).sum
  let sentences := nlp.sent_tokenize text
  let sentence_count := sentences.length
  let structure_ratio : ℚ := if sentence_count > 0 then (structure_count : ℚ) / sentence_count else 0
  let has_introduction := (["first", "initially", "to begin"].any fun w => pyIn w text_lower)
  let has_conclusion := (["finally", "in conclusion", "overall"].any fun w => pyIn w text_lower)
  let has_examples := (["for example", "such as", "like when"].any fun w => pyIn w text_lower)
  let structure_score : ℚ :=
    (structure_ratio + b2q has_introduction + b2q has_conclusion + b2q has_examples) / 4
  [("structure_indicators", .num structure_count),
   ("structure_ratio", .num structure_ratio),
   ("has_introduction", .bool has_introduction),
   ("has_conclusion", .bool has_conclusion),
   ("has_examples", .bool has_examples),
   ("has_overall_structure", .bool (has_introduction && has_conclusion)),
   ("structure_score", .num structure_score)]

/-- `_analyze_sentiment` (all values come from the external libraries). -/
def _analyze_sentiment (nlp : NLP) (text : String) : Features :=
  [("sentiment_polarity", .num (nlp.blob_polarity text)),
   ("sentiment_subjectivity", .num (nlp.blob_subjectivity text)),
   ("sentiment_compound", .num (nlp.vader_compound text)),
   ("sentiment_positive", .num (nlp.vader_pos text)),
   ("sentiment_negative", .num (nlp.vader_neg text)),
   ("sentiment_neutral", .num (nlp.vader_neu text))]

/-- `_analyze_relevance`. -/
def _analyze_relevance (nlp : NLP) (response_text question_text : String) : Features :=
  if question_text = "" then
    [("relevance_score", .num (1/2)), ("keyword_overlap_ratio", .num 0)]
  else
    let response_words :=
      (((nlp.word_tokenize response_text).filter
          fun w => pyIsAlpha w && !nlp.is_stopword (pyLower w)).map pyLower).dedup
    let question_words :=
      (((nlp.word_tokenize question_text).filter
          fun w => pyIsAlpha w && !nlp.is_stopword (pyLower w)).map pyLower).dedup
    let overlap : ℕ := (response_words.filter fun w => question_words.contains w).length
    let keyword_overlap_ratio : ℚ :=
      if question_words.length > 0 then (overlap : ℚ) / question_words.length else 0
    let relevance_score : ℚ := min (keyword_overlap_ratio * 2) 1
    [("relevance_score", .num relevance_score),
     ("keyword_overlap_ratio", .num keyword_overlap_ratio)]

/-- `_get_empty_features`. -/
def _get_empty_features : Features :=
  [("word_count", .num 0),
   ("sentence_count", .num 0),
   ("character_count", .num 0),
   ("avg_word_length", .num 0),
   ("avg_sentence_length", .num 0),
   ("unique_word_ratio", .num 0),
   ("filler_word_count", .num 0),
   ("filler_word_ratio", .num 0),
   ("technical_term_count", .num 0),
   ("technical_term_ratio", .num 0),
   ("confidence_indicators_positive", .num 0),
   ("confidence_indicators_negative", .num 0),
   ("confidence_score", .num 0),
   ("structure_indicators", .num 0),
   ("structure_ratio", .num 0),
   ("has_introduction", .bool false),
   ("has_conclusion", .bool false),
   ("has_examples", .bool false),
   ("has_overall_structure", .bool false),
   ("structure_score", .num 0),
   ("sentiment_polarity", .num 0),
   ("sentiment_subjectivity", .num 0),
   ("sentiment_compound", .num 0),
   ("sentiment_positive", .num 0),
   ("sentiment_negative", .num 0),
   ("sentiment_neutral", .num 0),
   ("relevance_score", .num 0),
   ("keyword_overlap_ratio", .num 0)]

/-- `extract_all_features`: short-circuits on blank input, otherwise
the union (here: append, keys disjoint) of the sub-extractor dicts. -/
def extract_all_features (nlp : NLP) (response_text question_text : String)
    (interview_type : String) : Features :=
  if response_text = "" ∨ pyStrip response_text = "" then _get_empty_features
  else
    _extract_basic_stats nlp response_text
      ++ _analyze_filler_words nlp response_text
      ++ _analyze_technical_terms nlp response_text interview_type
      ++ _analyze_confidence nlp response_text
      ++ _analyze_response_structure nlp response_text
      ++ _analyze_sentiment nlp response_text
      ++ _analyze_relevance nlp response_text question_text

/-- Split a character list into maximal space-free chunks. -/
def chunksAux : List Char → List Char → List String
  | [], acc => if acc = [] then [] else [String.mk acc.reverse]
  | c :: cs, acc =>
    if c = ' ' then
      (if acc = [] then chunksAux cs [] else String.mk acc.reverse :: chunksAux cs [])
    else chunksAux cs (c :: acc)

/-- Whitespace word splitting for the concrete oracle below. -/
def spaceWords (t : String) : List String := chunksAux t.toList []

/-- A simple concrete instantiation of the NLP oracle (whitespace word
tokenization, whole-text sentences, token-equality occurrence counting,
neutral sentiment, no stop words), used to evaluate the engine on
concrete inputs. -/
def simpleNLP : NLP where
  word_tokenize := spaceWords
  sent_tokenize := fun t => if pyStrip t = "" then [] else [t]
  countOcc := fun term text => ((spaceWords text).filter (· = term)).length
  blob_polarity := fun _ => 0
  blob_subjectivity := fun _ => 0
  vader_compound := fun _ => 0
  vader_pos := fun _ => 0
  vader_neg := fun _ => 0
  vader_neu := fun _ => 0
  is_stopword := fun _ => false

/-- Round half to even to an integer, as Python's `round` does. -/
def roundHalfEven (q : ℚ) : ℤ :=
  if q - (⌊q⌋ : ℚ) = 1/2 then (if ⌊q⌋ % 2 = 0 then ⌊q⌋ else ⌊q⌋ + 1) else round q

/-- Python `round(q, d)`. -/
def pyround (d : ℕ) (q : ℚ) : ℚ :=
  (roundHalfEven (q * 10 ^ d) : ℚ) / 10 ^ d

/-- Python `round(q, 2)`. -/
def pyround2 (q : ℚ) : ℚ := pyround 2 q

/-- The four component scores returned by `_calculate_component_scores`. -/
structure ComponentScores where
  content_quality : ℚ
  communication : ℚ
  confidence : ℚ
  technical_accuracy : ℚ
deriving DecidableEq

/-- The content-quality block of `_calculate_component_scores`
(`ml_service.py` lines 194-225). -/
def content_quality_score (features : Features) : ℚ :=
  let word_count := getNum features "word_count" 0
  let length_score : ℚ :=
    if word_count ≥ 80 then 10
    else if word_count ≥ 50 then 8
    else if word_count ≥ 30 then 6
    else if word_count ≥ 15 then 4
    else 2
  let structure_score : ℚ :=
    (if getBool features "has_overall_structure" false then 3 else 0)
      + (if getBool features "has_examples" false then 3 else 0)
      + (if getBool features "has_quantifiable_results" false then 2 else 0)
      + (if getNum features "structure_score" 0 > 1 then 2 else 0)
  let relevance_score : ℚ := getNum features "relevance_score" (1/2) * 10
  let content_score := length_score * 0.4 + structure_score * 0.3 + relevance_score * 0.3
  min 10 (max 0 content_score)

/-- The communication block of `_calculate_component_scores`
(`ml_service.py` lines 227-253). -/
def communication_score (features : Features) : ℚ :=
  let filler_ratio := getNum features "filler_word_ratio" 0
  let comm1 : ℚ :=
    10 - (if filler_ratio > 0.1 then 4
          else if filler_ratio > 0.05 then 2
          else if filler_ratio > 0.02 then 1
          else 0)
  let avg_sentence_length := getNum features "avg_sentence_length" 0
  let comm2 : ℚ :=
    if 15 ≤ avg_sentence_length ∧ avg_sentence_length ≤ 25 then comm1 + 1
    else if avg_sentence_length < 8 ∨ avg_sentence_length > 35 then comm1 - 1
    else comm1
  let vocab_diversity := getNum features "vocabulary_diversity" 0
  let comm3 : ℚ :=
    if vocab_diversity ≥ 0.7 then comm2 + 1
    else if vocab_diversity < 0.3 then comm2 - 1
    else comm2
  min 10 (max 0 comm3)

/-- The confidence block of `_calculate_component_scores`
(`ml_service.py` lines 255-270): the thresholds are applied to the value
of the `confidence_score` dict entry. -/
def confidence_component_score (features : Features) : ℚ :=
  let confidence_indicators := getNum features "confidence_score" 0
  if confidence_indicators ≥ 3 then 9
  else if confidence_indicators ≥ 1 then 8
  else if confidence_indicators ≥ 0 then 7
  else if confidence_indicators ≥ -1 then 5
  else 3

/-- The technical-accuracy block of `_calculate_component_scores`
(`ml_service.py` lines 272-294). -/
def technical_accuracy_score (features : Features) (interview_type : String) : ℚ :=
  if pyStartswith "technical" interview_type then
    let tech_terms := getNum features "technical_term_count" 0
    let tech_ratio := getNum features "technical_term_ratio" 0
    if tech_terms ≥ 5 ∧ tech_ratio ≥ 0.05 then 9
    else if tech_terms ≥ 3 ∧ tech_ratio ≥ 0.03 then 7
    else if tech_terms ≥ 1 then 5
    else 3
  else
    if getBool features "has_examples" false && getBool features "has_overall_structure" false then 8
    else if getBool features "has_examples" false || getBool features "has_overall_structure" false then 6
    else 4

/-- `InterviewAnalyzer._calculate_component_scores` from `ml_service.py`:
the four independent blocks above, assembled into the scores dict
(`response_text` is accepted but unread, as in the source). -/
def _calculate_component_scores (features : Features) (response_text : String)
    (interview_type : String) : ComponentScores :=
  { content_quality := content_quality_score features,
    communication := communication_score features,
    confidence := confidence_component_score features,
    technical_accuracy := technical_accuracy_score features interview_type }

/-- `InterviewAnalyzer._score_to_rating`. -/
def _score_to_rating (score : ℚ) : String :=
  if score ≥ 8.5 then "excellent"
  else if score ≥ 7.0 then "good"
  else if score ≥ 5.0 then "average"
  else "poor"

/-- The prediction dict produced by the predictor strategy
(`score_percentage` is present only on the rule-based path). -/
structure Pred where
  prediction : String
  confidence : ℚ
  score_percentage : Option ℚ
  method : String
deriving DecidableEq

/-- The final value of the `score` accumulator in
`InterviewAnalyzer._get_rule_based_prediction` (`ml_service.py` lines
112-166): the sum of the six point tiers. -/
def rule_based_points (features : Features) : ℚ :=
  let word_count := getNum features "word_count" 0
  let wordPoints : ℚ :=
    if word_count ≥ 80 then 20
    else if word_count ≥ 50 then 15
    else if word_count ≥ 30 then 10
    else if word_count ≥ 15 then 5
    else 0
  let filler_ratio := getNum features "filler_word_ratio" 0
  let fillerPoints : ℚ :=
    if filler_ratio ≤ 0.02 then 15
    else if filler_ratio ≤ 0.05 then 10
    else if filler_ratio ≤ 0.1 then 5
    else 0
  let tech_count := getNum features "technical_term_count" 0
  let techPoints : ℚ :=
    if tech_count ≥ 5 then 20
    else if tech_count ≥ 3 then 15
    else if tech_count ≥ 1 then 10
    else 0
  let structPoints : ℚ :=
    (if getBool features "has_overall_structure" false then 8 else 0)
      + (if getBool features "has_examples" false then 7 else 0)
  let confidence_score := getNum features "confidence_score" 0
  let confPoints : ℚ :=
    if confidence_score ≥ 2 then 15
    else if confidence_score ≥ 0 then 10
    else if confidence_score ≥ -1 then 5
    else 0
  let vocab_diversity := getNum features "vocabulary_diversity" 0
  let vocabPoints : ℚ :=
    if vocab_diversity ≥ 0.7 then 15
    else if vocab_diversity ≥ 0.5 then 10
    else if vocab_diversity ≥ 0.3 then 5
    else 0
  wordPoints + fillerPoints + techPoints + structPoints + confPoints + vocabPoints

/-- `InterviewAnalyzer._get_rule_based_prediction`. -/
def _get_rule_based_prediction (features : Features) : Pred :=
  let score := rule_based_points features
  let max_score : ℚ := 100
  let percentage := score / max_score * 100
  let rating :=
    if percentage ≥ 85 then "excellent"
    else if percentage ≥ 70 then "good"
    else if percentage ≥ 50 then "average"
    else "poor"
  { prediction := rating,
    confidence := 0.8,
    score_percentage := some percentage,
    method := "rule_based" }

/-- `InterviewAnalyzer._get_ml_prediction`: the whole `try` body (pandas
re-ordering, scaling, classifier prediction) is the external function
`mlModel`; any exception it raises falls back to the rule-based result. -/
def _get_ml_prediction (mlModel : Features → Except String Pred) (features : Features) : Pred :=
  match mlModel features with
  | Except.ok p => p
  | Except.error _ => _get_rule_based_prediction features

/-- The analysis dict returned by `analyze_response`. -/
structure Analysis where
  overall_score : ℚ
  rating : String
  scores : ComponentScores
  ml_prediction : Pred
  features : Features
  interview_type : String
deriving DecidableEq

/-- `InterviewAnalyzer.analyze_response`: `mlModel = some m` models the
state where both `self.model` and `self.scaler` loaded; `none` models
the rule-based configuration.  The rating is computed from the
unrounded overall score; the returned score is rounded to 2 decimals. -/
def analyze_response (mlModel : Option (Features → Except String Pred)) (nlp : NLP)
    (response_text : String) (question_text : String) (interview_type : String) : Analysis :=
  let features := extract_all_features nlp response_text question_text interview_type
  let ml_prediction :=
    match mlModel with
    | some m => _get_ml_prediction m features
    | none => _get_rule_based_prediction features
  let scores := _calculate_component_scores features response_text interview_type
  let overall_score :=
    scores.content_quality * 0.35 + scores.communication * 0.25
      + scores.confidence * 0.20 + scores.technical_accuracy * 0.20
  let rating := _score_to_rating overall_score
  { overall_score := pyround2 overall_score,
    rating := rating,
    scores := scores,
    ml_prediction := ml_prediction,
    features := features,
    interview_type := interview_type }

/-- The `SessionResponse` row fields read by `calculate_overall_feedback`
in `main.py`.  The four score columns are `DECIMAL(4, 2)` in `models.py`
(nullable), so stored values carry at most two decimal places. -/
structure SessionResponse where
  content_quality_score : Option ℚ
  communication_score : Option ℚ
  confidence_score : Option ℚ
  technical_accuracy_score : Option ℚ
  word_count : Option ℤ
  filler_word_count : Option ℤ
  technical_term_count : Option ℤ
  average_word_length : Option ℚ
deriving DecidableEq

/-- `detailed_metrics.average_scores` in the session feedback dict. -/
structure AverageScores where
  content_quality : ℚ
  communication : ℚ
  confidence : ℚ
  technical_accuracy : ℚ
deriving DecidableEq

/-- `detailed_metrics.aggregated_stats` in the session feedback dict. -/
structure AggregatedStats where
  total_words : ℤ
  total_filler_words : ℤ
  total_tech_terms : ℤ
  responses_count : ℕ
  avg_word_length : ℚ
  filler_word_ratio : ℚ
deriving DecidableEq

/-- `detailed_metrics` in the session feedback dict. -/
structure DetailedMetrics where
  average_scores : AverageScores
  aggregated_stats : AggregatedStats
deriving DecidableEq

/-- The session feedback dict returned by `calculate_overall_feedback`
(`detailed_metrics` is the empty dict `{}`, here `none`, on empty input). -/
structure SessionFeedback where
  overall_score : ℚ
  overall_rating : String
  strengths : List String
  improvements : List String
  detailed_metrics : Option DetailedMetrics
deriving DecidableEq

/-- The inline session-level rating chain of `calculate_overall_feedback`
(`main.py` lines 518-526). -/
def session_score_to_rating (overall_score : ℚ) : String :=
  if overall_score ≥ 8.5 then "excellent"
  else if overall_score ≥ 7.0 then "good"
  else if overall_score ≥ 5.0 then "average"
  else "needs_improvement"

/-- `calculate_overall_feedback` from `main.py` (`float(x or 0)` on a
nullable column is `Option.getD 0`). -/
def calculate_overall_feedback (responses : List SessionResponse) : SessionFeedback :=
  if responses = [] then
    { overall_score := 0,
      overall_rating := "insufficient_data",
      strengths := [],
      improvements := ["Complete more questions to get detailed feedback"],
      detailed_metrics := none }
  else
    let n : ℚ := responses.length
    let avg_content := (responses.map fun r => r.content_quality_score.getD 0).sum / n
    let avg_communication := (responses.map fun r => r.communication_score.getD 0).sum / n
    let avg_confidence := (responses.map fun r => r.confidence_score.getD 0).sum / n
    let avg_technical := (responses.map fun r => r.technical_accuracy_score.getD 0).sum / n
    let overall_score := (avg_content + avg_communication + avg_confidence + avg_technical) / 4
    let overall_rating := session_score_to_rating overall_score
    let total_words := (responses.map fun r => r.word_count.getD 0).sum
    let total_filler_words := (responses.map fun r => r.filler_word_count.getD 0).sum
    let total_tech_terms := (responses.map fun r => r.technical_term_count.getD 0).sum
    let avg_word_length := (responses.map fun r => r.average_word_length.getD 0).sum / n
    let strengths :=
      (if avg_communication ≥ 8.0 then ["Excellent communication skills with clear articulation"] else [])
        ++ (if avg_technical ≥ 8.0 then ["Strong technical knowledge and accurate explanations"] else [])
        ++ (if avg_confidence ≥ 8.0 then ["Confident and assertive delivery throughout"] else [])
        ++ (if (total_filler_words : ℚ) / n ≤ 2 then ["Professional speech with minimal filler words"] else [])
        ++ (if avg_content ≥ 8.0 then ["Well-structured responses with good depth and examples"] else [])
    let improvements :=
      (if avg_communication < 6.0 then ["Work on clarity and structure of responses"] else [])
        ++ (if avg_technical < 6.0 then ["Deepen technical knowledge in key areas"] else [])
        ++ (if avg_confidence < 6.0 then ["Practice to build confidence in your delivery"] else [])
        ++ (if (total_filler_words : ℚ) / n > 5 then ["Reduce filler words through practice and pausing"] else [])
        ++ (if avg_content < 6.0 then ["Provide more detailed answers with specific examples"] else [])
    let improvements :=
      if improvements = [] then ["Continue practicing to maintain your strong performance"]
      else improvements
    { overall_score := pyround2 overall_score,
      overall_rating := overall_rating,
      strengths := strengths,
      improvements := improvements,
      detailed_metrics := some
        { average_scores :=
            { content_quality := pyround2 avg_content,
              communication := pyround2 avg_communication,
              confidence := pyround2 avg_confidence,
              technical_accuracy := pyround2 avg_technical },
          aggregated_stats :=
            { total_words := total_words,
              total_filler_words := total_filler_words,
              total_tech_terms := total_tech_terms,
              responses_count := responses.length,
              avg_word_length := pyround2 avg_word_length,
              filler_word_ratio :=
                pyround 4 (if total_words > 0 then (total_filler_words : ℚ) / total_words else 0) } } }

/-- The sentence-length / vocabulary adjustment and clamping tail of the
communication score, abstracted over the post-penalty base value. -/
def commClamp (a v base : ℚ) : ℚ :=
  let c2 := if 15 ≤ a ∧ a ≤ 25 then base + 1 else if a < 8 ∨ a > 35 then base - 1 else base
  let c3 := if v ≥ 0.7 then c2 + 1 else if v < 0.3 then c2 - 1 else c2
  min 10 (max 0 c3)

/-- A feature dict exactly as `_analyze_confidence` produces it for a
text with three positive and no negative confidence indicators
(`confidence_score = 3/(3+0) = 1`). -/
def cexConfidenceFeatures : Features :=
  [("confidence_indicators_positive", .num 3),
   ("confidence_indicators_negative", .num 0),
   ("confidence_score", .num 1)]

/-- A concrete stored response row with two-decimal scores. -/
def witnessResponse : SessionResponse :=
  { content_quality_score := some 7, communication_score := some 8,
    confidence_score := some 6, technical_accuracy_score := some 9,
    word_count := some 100, filler_word_count := some 2,
    technical_term_count := some 5, average_word_length := some (9/2) }

/-- Claim C1 (confirmed): for every oracle, response text, question text
and interview type, `extract_all_features` returns a feature dict whose
(ordered) key list is exactly the 28-key list of `_get_empty_features` —
no missing keys and no extra keys, for empty and non-empty inputs alike. -/
theorem extract_all_features_key_set (nlp : NLP)
    (response_text question_text interview_type : String) :
    (extract_all_features nlp response_text question_text interview_type).map Prod.fst
      = _get_empty_features.map Prod.fst := by
  unfold extract_all_features
  split
  · rfl
  · unfold _extract_basic_stats _analyze_filler_words _analyze_technical_terms
      _analyze_confidence _analyze_response_structure _analyze_sentiment _analyze_relevance
    split <;> simp [_get_empty_features]

/-- Claim C5 (confirmed): the overall score of every analysis is the
weighted mean of its four component scores with weights 0.35 (content),
0.25 (communication), 0.20 (confidence), 0.20 (technical), rounded to
two decimals. -/
theorem overall_is_weighted_mean (mlModel : Option (Features → Except String Pred)) (nlp : NLP)
    (response_text question_text interview_type : String) :
    (analyze_response mlModel nlp response_text question_text interview_type).overall_score
      = pyround2
          ((analyze_response mlModel nlp response_text question_text interview_type).scores.content_quality * 0.35
            + (analyze_response mlModel nlp response_text question_text interview_type).scores.communication * 0.25
            + (analyze_response mlModel nlp response_text question_text interview_type).scores.confidence * 0.20
            + (analyze_response mlModel nlp response_text question_text interview_type).scores.technical_accuracy * 0.20) := rfl

/-- Claim C6 (confirmed): when the trained-model predictor raises on a
feature vector, `_get_ml_prediction` returns exactly the rule-based
result for that same feature vector, whose `method` is `"rule_based"`,
and no exception propagates (the embedding is a total function). -/
theorem ml_fallback (m : Features → Except String Pred) (features : Features) (e : String)
    (h : m features = Except.error e) :
    _get_ml_prediction m features = _get_rule_based_prediction features
      ∧ (_get_ml_prediction m features).method = "rule_based" := by
  unfold _get_ml_prediction
  rw [h]
  exact ⟨rfl, rfl⟩

/-- Witness for `ml_fallback`: a model that always raises, applied to the
empty feature vector. -/
theorem ml_fallback_witness :
    _get_ml_prediction (fun _ => Except.error "corrupt model") _get_empty_features
        = _get_rule_based_prediction _get_empty_features
      ∧ (_get_ml_prediction (fun _ => Except.error "corrupt model") _get_empty_features).method
        = "rule_based" :=
  ml_fallback (fun _ => Except.error "corrupt model") _get_empty_features "corrupt model" rfl

/-- Counterexample to claim C4: at overall score 4 (below the 5.0 tier)
the single-response rating is `"poor"` but the session-level rating is
`"needs_improvement"` — the two rating functions do not share the same
four labels. -/
theorem rating_labels_differ :
    _score_to_rating 4 = "poor" ∧ session_score_to_rating 4 = "needs_improvement"
      ∧ _score_to_rating 4 ≠ session_score_to_rating 4 := by
  refine ⟨?_, ?_, ?_⟩ <;> norm_num [_score_to_rating, session_score_to_rating] <;> decide

/-- Claim C4 as amended (corrected): the thresholds 8.5 / 7.0 / 5.0 are
shared verbatim between the single-response and the session-level rating
and are closed on the lower bound of each tier (exactly 8.5 is
"excellent", anything below down to 7.0 is "good"), and the top three
labels agree; but the bottom tier label is `"poor"` for the
single-response rating and `"needs_improvement"` for the session-level
rating. -/
theorem rating_thresholds (s : ℚ) :
    (_score_to_rating s = "excellent" ↔ s ≥ 8.5)
      ∧ (_score_to_rating s = "good" ↔ 7 ≤ s ∧ s < 8.5)
      ∧ (_score_to_rating s = "average" ↔ 5 ≤ s ∧ s < 7)
      ∧ (_score_to_rating s = "poor" ↔ s < 5)
      ∧ session_score_to_rating s = (if s < 5 then "needs_improvement" else _score_to_rating s) := by
  unfold _score_to_rating session_score_to_rating
  split_ifs <;> simp_all <;> try linarith


theorem commClamp_mono (a v b1 b2 : ℚ) (h : b1 ≤ b2) : commClamp a v b1 ≤ commClamp a v b2 := by
  unfold commClamp
  apply min_le_min le_rfl
  apply max_le_max le_rfl
  split_ifs <;> linarith

theorem communication_score_eq (f : Features) :
    communication_score f
      = commClamp (getNum f "avg_sentence_length" 0) (getNum f "vocabulary_diversity" 0)
          (10 - (if getNum f "filler_word_ratio" 0 > 0.1 then 4
                 else if getNum f "filler_word_ratio" 0 > 0.05 then 2
                 else if getNum f "filler_word_ratio" 0 > 0.02 then 1
                 else 0)) := rfl

/-- Claim C7 (confirmed): for any two feature vectors that agree on every
key except `filler_word_ratio`, the one with the larger filler-word ratio
never gets a strictly larger communication component score. -/
theorem communication_antitone (f1 f2 : Features)
    (hagree : ∀ k, k ≠ "filler_word_ratio" → fget f1 k = fget f2 k)
    (hle : getNum f1 "filler_word_ratio" 0 ≤ getNum f2 "filler_word_ratio" 0)
    (response_text interview_type : String) :
    (_calculate_component_scores f2 response_text interview_type).communication
      ≤ (_calculate_component_scores f1 response_text interview_type).communication := by
  have hasl : getNum f2 "avg_sentence_length" 0 = getNum f1 "avg_sentence_length" 0 := by
    unfold getNum
    rw [hagree _ (by decide)]
  have hvoc : getNum f2 "vocabulary_diversity" 0 = getNum f1 "vocabulary_diversity" 0 := by
    unfold getNum
    rw [hagree _ (by decide)]
  show communication_score f2 ≤ communication_score f1
  rw [communication_score_eq, communication_score_eq, hasl, hvoc]
  apply commClamp_mono
  have := hle
  split_ifs <;> linarith

/-- Witness for `communication_antitone`: two singleton feature dicts
differing only in `filler_word_ratio` (0 versus 20%). -/
theorem communication_antitone_witness :
    (_calculate_component_scores [("filler_word_ratio", FVal.num (1/5))] "resp" "general").communication
      ≤ (_calculate_component_scores [("filler_word_ratio", FVal.num 0)] "resp" "general").communication := by
  apply communication_antitone
  · intro k hk
    simp [fget, hk]
  · norm_num [getNum, fget, FVal.toRat]

theorem scores_on_empty (response_text interview_type : String) :
    _calculate_component_scores _get_empty_features response_text interview_type
      = { content_quality := 0.8, communication := 8, confidence := 7,
          technical_accuracy := if pyStartswith "technical" interview_type then 3 else 4 } := by
  unfold _calculate_component_scores content_quality_score communication_score
    confidence_component_score technical_accuracy_score
  simp [getNum, getBool, fget, FVal.toRat, FVal.toBool, _get_empty_features]
  norm_num

theorem extract_empty_string (nlp : NLP) (q t : String) :
    extract_all_features nlp "" q t = _get_empty_features := by
  unfold extract_all_features
  simp

/-- Counterexample to claim C2: on the empty response, `analyze_response`
returns overall score 4.28 (content 0.8, communication 8, confidence 7,
technical 3 under the default weights), which is not 0. -/
theorem analyze_blank_score_not_zero :
    (analyze_response none simpleNLP "" "question" "technical_software").overall_score = 4.28
      ∧ (4.28 : ℚ) ≠ 0 := by
  constructor
  · simp only [analyze_response, extract_empty_string, scores_on_empty]
    norm_num [pyround2, pyround, roundHalfEven, round_eq, pyStartswith, startsWithChars]
  · norm_num

/-- Claim C2 as amended (corrected): for empty or whitespace-only
response text, `analyze_response` never raises (total function), the
feature vector is the all-zero/false `_get_empty_features`, and the
overall score is 4.28 for technical interview types and 4.48 otherwise —
not 0 as claimed. -/
theorem analyze_blank (mlModel : Option (Features → Except String Pred)) (nlp : NLP)
    (response_text question_text interview_type : String)
    (h : response_text = "" ∨ pyStrip response_text = "") :
    (analyze_response mlModel nlp response_text question_text interview_type).features
        = _get_empty_features
      ∧ (analyze_response mlModel nlp response_text question_text interview_type).overall_score
          = (if pyStartswith "technical" interview_type then 4.28 else 4.48) := by
  have hf : extract_all_features nlp response_text question_text interview_type
      = _get_empty_features := by
    unfold extract_all_features
    rw [if_pos h]
  constructor
  · simp only [analyze_response, hf]
  · simp only [analyze_response, hf, scores_on_empty]
    split_ifs
    · norm_num [pyround2, pyround, roundHalfEven, round_eq]
    · norm_num [pyround2, pyround, roundHalfEven, round_eq]

/-- Witness for `analyze_blank`: a whitespace-only response in a
behavioral interview. -/
theorem analyze_blank_witness :
    (analyze_response none simpleNLP " " "question" "behavioral").features = _get_empty_features
      ∧ (analyze_response none simpleNLP " " "question" "behavioral").overall_score
          = (if pyStartswith "technical" "behavioral" then 4.28 else 4.48) :=
  analyze_blank none simpleNLP " " "question" "behavioral" (Or.inr (by decide))

theorem fget_cons (k' : String) (v : FVal) (rest : Features) (k : String) :
    fget ((k', v) :: rest) k = if k = k' then some v else fget rest k := rfl

theorem getNum_eq (f : Features) (k : String) (d : ℚ) :
    getNum f k d = (fget f k).elim d FVal.toRat := by
  unfold getNum
  cases fget f k <;> rfl

theorem getBool_eq (f : Features) (k : String) (d : Bool) :
    getBool f k d = (fget f k).elim d FVal.toBool := by
  unfold getBool
  cases fget f k <;> rfl

/-- The `confidence_score` feature is a ratio: every extracted vector has
it in `[0, 1]` (it is `positive/(positive+negative)`, `0.5`, or `0`). -/
theorem confidence_ratio_bounds (nlp : NLP) (r q t : String) :
    0 ≤ getNum (extract_all_features nlp r q t) "confidence_score" 0
      ∧ getNum (extract_all_features nlp r q t) "confidence_score" 0 ≤ 1 := by
  unfold extract_all_features
  split
  · simp [getNum, fget, _get_empty_features, FVal.toRat]
  · unfold _extract_basic_stats _analyze_filler_words _analyze_technical_terms _analyze_confidence
    simp only [List.cons_append, List.nil_append, getNum_eq, fget_cons, String.reduceEq,
      reduceIte, Option.elim, FVal.toRat]
    split
    · rename_i htot
      refine ⟨div_nonneg (Nat.cast_nonneg _) (Nat.cast_nonneg _), ?_⟩
      rw [div_le_one (by exact_mod_cast htot)]
      exact_mod_cast Nat.le_add_right _ _
    · norm_num


/-- Counterexample to claim C3: on a feature vector whose
confidence-polarity indicator count is 3 (three positive, zero negative),
the confidence component is 8, not the 9 the claimed count-based step
function requires — the code applies the thresholds to the ratio-valued
`confidence_score` entry instead. -/
theorem confidence_step_not_count :
    getNum cexConfidenceFeatures "confidence_indicators_positive" 0
        - getNum cexConfidenceFeatures "confidence_indicators_negative" 0 = 3
      ∧ (_calculate_component_scores cexConfidenceFeatures "resp" "technical_software").confidence = 8
      ∧ (8 : ℚ) ≠ 9 := by
  refine ⟨?_, ?_, by norm_num⟩
  · simp [getNum, fget, cexConfidenceFeatures, FVal.toRat]
  · show confidence_component_score cexConfidenceFeatures = 8
    unfold confidence_component_score
    simp [getNum, fget, cexConfidenceFeatures, FVal.toRat]

/-- Claim C3 as amended (corrected): the confidence component applies the
step thresholds to the ratio-valued `confidence_score` feature (in
`[0, 1]` on every extracted vector), not to the indicator count, so on
extractor output it is 8 exactly when the ratio reaches 1 and 7
otherwise — the 9, 5 and 3 branches are unreachable. -/
theorem confidence_component_of_ratio (nlp : NLP)
    (r q t response_text interview_type : String) :
    (_calculate_component_scores (extract_all_features nlp r q t)
        response_text interview_type).confidence
      = (if getNum (extract_all_features nlp r q t) "confidence_score" 0 ≥ 1 then 8 else 7) := by
  obtain ⟨h0, h1⟩ := confidence_ratio_bounds nlp r q t
  show confidence_component_score _ = _
  simp only [confidence_component_score]
  rw [if_neg (by simp only [ge_iff_le]; intro hc; linarith)]
  by_cases hge : getNum (extract_all_features nlp r q t) "confidence_score" 0 ≥ 1
  · rw [if_pos hge, if_pos hge]
  · rw [if_neg hge, if_neg hge, if_pos (by simp only [ge_iff_le]; linarith)]

theorem ite_nonempty (l : List String) (g : String) :
    (if l = [] then [g] else l) ≠ [] := by
  split
  · simp
  · assumption

/-- Claim C8 (confirmed): aggregation of an empty response list returns
the neutral zero result with the fixed insufficient-data improvement
message (and cannot raise, being a total function); and for every
non-empty input the improvements list is non-empty, because a generic
encouragement message is substituted when no specific rule fires. -/
theorem aggregate_empty_and_improvements :
    calculate_overall_feedback []
        = { overall_score := 0, overall_rating := "insufficient_data", strengths := [],
            improvements := ["Complete more questions to get detailed feedback"],
            detailed_metrics := none }
      ∧ ∀ rs : List SessionResponse, rs ≠ [] → (calculate_overall_feedback rs).improvements ≠ [] := by
  constructor
  · rfl
  · intro rs hrs
    simp only [calculate_overall_feedback, if_neg hrs]
    exact ite_nonempty _ _


/-- Witness for `aggregate_empty_and_improvements`: a singleton session. -/
theorem aggregate_empty_and_improvements_witness :
    (calculate_overall_feedback [witnessResponse]).improvements ≠ [] :=
  aggregate_empty_and_improvements.2 [witnessResponse] (List.cons_ne_nil _ _)

theorem roundHalfEven_intCast (n : ℤ) : roundHalfEven (n : ℚ) = n := by
  unfold roundHalfEven
  rw [Int.floor_intCast]
  have h : (n : ℚ) - n = 0 := by ring
  rw [h]
  norm_num

/-- Claim C9 (confirmed): aggregating a single stored response reproduces
its four component scores exactly as the session average scores.  The
two-decimal hypotheses (`pyround2 x = x`) hold for every value the
`DECIMAL(4, 2)` score columns of `models.py` can store. -/
theorem aggregate_singleton_exact (a : SessionResponse) (c m k t : ℚ)
    (hc : a.content_quality_score = some c) (hm : a.communication_score = some m)
    (hk : a.confidence_score = some k) (ht : a.technical_accuracy_score = some t)
    (hc2 : pyround2 c = c) (hm2 : pyround2 m = m) (hk2 : pyround2 k = k) (ht2 : pyround2 t = t) :
    (calculate_overall_feedback [a]).detailed_metrics.map DetailedMetrics.average_scores
      = some { content_quality := c, communication := m, confidence := k, technical_accuracy := t } := by
  simp only [calculate_overall_feedback]
  rw [if_neg (List.cons_ne_nil _ _)]
  simp only [List.map_cons, List.map_nil, List.sum_cons, List.sum_nil, List.length_cons,
    List.length_nil, Nat.cast_one, hc, hm, hk, ht, Option.getD_some, add_zero, div_one,
    Option.map_some]
  split
  · simp [hc2, hm2, hk2, ht2]
  · simp [hc2, hm2, hk2, ht2]

/-- Witness for `aggregate_singleton_exact`: the session with exactly one
stored response whose scores are 7, 8, 6, 9. -/
theorem aggregate_singleton_exact_witness :
    (calculate_overall_feedback [witnessResponse]).detailed_metrics.map DetailedMetrics.average_scores
      = some { content_quality := 7, communication := 8, confidence := 6, technical_accuracy := 9 } :=
  aggregate_singleton_exact witnessResponse 7 8 6 9 rfl rfl rfl rfl
    (by norm_num [pyround2, pyround, roundHalfEven, round_eq])
    (by norm_num [pyround2, pyround, roundHalfEven, round_eq])
    (by norm_num [pyround2, pyround, roundHalfEven, round_eq])
    (by norm_num [pyround2, pyround, roundHalfEven, round_eq])

/-- The extractor never emits a `vocabulary_diversity` key (it emits
`unique_word_ratio` instead), so the rule-based vocabulary tier reads its
default 0. -/
theorem vocabulary_diversity_absent (nlp : NLP) (r q t : String) :
    fget (extract_all_features nlp r q t) "vocabulary_diversity" = none := by
  unfold extract_all_features
  split
  · simp [fget, _get_empty_features]
  · unfold _extract_basic_stats _analyze_filler_words _analyze_technical_terms
      _analyze_confidence _analyze_response_structure _analyze_sentiment _analyze_relevance
    split <;>
      simp only [List.cons_append, List.nil_append, fget_cons, String.reduceEq, reduceIte, fget]

theorem rule_based_points_le (f : Features)
    (hc0 : 0 ≤ getNum f "confidence_score" 0) (hc1 : getNum f "confidence_score" 0 ≤ 1)
    (hv : fget f "vocabulary_diversity" = none) :
    rule_based_points f ≤ 80 := by
  have hv0 : getNum f "vocabulary_diversity" 0 = 0 := by
    rw [getNum_eq, hv]
    rfl
  simp only [rule_based_points, hv0]
  norm_num
  have h1 : (if getNum f "word_count" 0 ≥ 80 then (20:ℚ)
      else if getNum f "word_count" 0 ≥ 50 then 15
      else if getNum f "word_count" 0 ≥ 30 then 10
      else if getNum f "word_count" 0 ≥ 15 then 5 else 0) ≤ 20 := by
    split_ifs <;> norm_num
  have h2 : (if getNum f "filler_word_ratio" 0 ≤ 0.02 then (15:ℚ)
      else if getNum f "filler_word_ratio" 0 ≤ 0.05 then 10
      else if getNum f "filler_word_ratio" 0 ≤ 0.1 then 5 else 0) ≤ 15 := by
    split_ifs <;> norm_num
  have h3 : (if getNum f "technical_term_count" 0 ≥ 5 then (20:ℚ)
      else if getNum f "technical_term_count" 0 ≥ 3 then 15
      else if getNum f "technical_term_count" 0 ≥ 1 then 10 else 0) ≤ 20 := by
    split_ifs <;> norm_num
  have h4 : ((if getBool f "has_overall_structure" false then (8:ℚ) else 0)
      + if getBool f "has_examples" false then 7 else 0) ≤ 15 := by
    split_ifs <;> norm_num
  have h5 : (if getNum f "confidence_score" 0 ≥ 2 then (15:ℚ)
      else if getNum f "confidence_score" 0 ≥ 0 then 10
      else if getNum f "confidence_score" 0 ≥ -1 then 5 else 0) ≤ 10 := by
    split_ifs <;> linarith
  linarith [h1, h2, h3, h4, h5]

/-- Claim C10 (confirmed): on every extractor-produced feature vector the
`confidence_score` feature lies in `[0, 1]` (so the `≥ 2` tier worth 15
confidence points never fires), the `vocabulary_diversity` key is absent
(so the up-to-15 vocabulary points are 0), hence the rule-based point
total is at most 80 of 100 and the rule-based rating is never
`"excellent"`. -/
theorem rule_based_never_excellent (nlp : NLP) (r q t : String) :
    (0 ≤ getNum (extract_all_features nlp r q t) "confidence_score" 0
        ∧ getNum (extract_all_features nlp r q t) "confidence_score" 0 ≤ 1)
      ∧ fget (extract_all_features nlp r q t) "vocabulary_diversity" = none
      ∧ (∃ p, (_get_rule_based_prediction (extract_all_features nlp r q t)).score_percentage
            = some p ∧ p ≤ 80)
      ∧ (_get_rule_based_prediction (extract_all_features nlp r q t)).prediction ≠ "excellent" := by
  obtain ⟨hc0, hc1⟩ := confidence_ratio_bounds nlp r q t
  have hv := vocabulary_diversity_absent nlp r q t
  have hb := rule_based_points_le (extract_all_features nlp r q t) hc0 hc1 hv
  have hperc : rule_based_points (extract_all_features nlp r q t) / 100 * 100
      = rule_based_points (extract_all_features nlp r q t) :=
    div_mul_cancel₀ _ (by norm_num)
  refine ⟨⟨hc0, hc1⟩, hv, ⟨_, rfl, ?_⟩, ?_⟩
  · rw [hperc]
    exact hb
  · show (if _ ≥ 85 then "excellent" else _) ≠ "excellent"
    rw [if_neg (by rw [ge_iff_le, hperc]; intro hcon; linarith)]
    split_ifs <;> decide

end MockInterview
